import Mathlib

/-!
Verification of the per-client session engine of ttyd (src/protocol.c).

The development is a shallow embedding of `protocol.c`: each C function the
claims mention is translated to an executable Lean definition over explicit
state records.  External libraries (libwebsockets, json-c, libuv) are
modelled by explicit inputs: JSON parsing results are supplied by a
`JsonLib` record of parse functions, header contents and I/O outcomes by
environment records.  Machine integers are `Int`/`Nat` with explicit
`% 2 ^ 16` where the C code truncates (the `unsigned short` fields of
`struct winsize`).
-/

namespace Ttyd

/-- Slot states of the single-element pty-to-socket handoff
(`STATE_INIT`, `STATE_READY`, `STATE_DONE` in `server.h`, used by
`read_cb` and `callback_tty`). -/
inductive SlotState where
  | STATE_INIT : SlotState
  | STATE_READY : SlotState
  | STATE_DONE : SlotState
deriving DecidableEq, Repr

/-- Web socket close statuses used by `protocol.c` via `lws_close_reason`. -/
inductive CloseStatus where
  | normal : CloseStatus
  | policyViolation : CloseStatus
  | unexpectedCondition : CloseStatus
deriving DecidableEq, Repr

/-- Numeric RFC 6455 close code of each status
(`LWS_CLOSE_STATUS_NORMAL` = 1000, `LWS_CLOSE_STATUS_POLICY_VIOLATION` =
1008, `LWS_CLOSE_STATUS_UNEXPECTED_CONDITION` = 1011). -/
def CloseStatus.code : CloseStatus → Nat
  | .normal => 1000
  | .policyViolation => 1008
  | .unexpectedCondition => 1011

/-- Modelled from the spec: the client-to-server frame tag bytes.  The
header `server.h` defining the tag values is not under src/; the spec
fixes the tag names (`INPUT`, `RESIZE_TERMINAL`, `JSON_DATA`) as distinct
single ASCII bytes.  We use the project's historical values
(`'0'`, `'1'`, an opening brace); only their distinctness matters to the
claims. -/
def INPUT : Nat := 48

/-- Modelled from the spec: tag byte of a window-size change frame. -/
def RESIZE_TERMINAL : Nat := 49

/-- Modelled from the spec: tag byte of a control-JSON frame (the byte is
an opening brace, so that the whole frame parses as JSON). -/
def JSON_DATA : Nat := 123

/-- The `struct winsize` passed to `TIOCSWINSZ`; all four fields are
`unsigned short`, represented as naturals below `2 ^ 16`. -/
structure Winsize where
  ws_row : Nat
  ws_col : Nat
  ws_xpixel : Nat
  ws_ypixel : Nat
deriving DecidableEq, Repr

/-- Result of the json-c calls made by `parse_window_size`: the value of
the `columns` and `rows` fields when present (`json_object_object_get_ex`
on a failed parse returns false, which is indistinguishable from an
absent field, so a malformed payload is `(none, none)`).  The values are
the C `int`s returned by `json_object_get_int`. -/
def WinsizeFields : Type := Option Int × Option Int

/-- Translation of `parse_window_size` (protocol.c:61).  Takes the
json-c field-lookup results for the payload and the current window size;
returns the C function's boolean result together with the window size
left in `*size`.  On success the code zeroes the whole struct
(`memset`) and stores the two values cast to `unsigned short`, i.e.
reduced modulo `2 ^ 16`; on a missing field it returns before touching
`*size`. -/
def parse_window_size (fields : WinsizeFields) (size : Winsize) :
    Bool × Winsize :=
  match fields.1 with
  | none => (false, size)
  | some columns =>
    match fields.2 with
    | none => (false, size)
    | some rows =>
      (true,
       { ws_row := (rows % (2 ^ 16 : Int)).toNat,
         ws_col := (columns % (2 ^ 16 : Int)).toNat,
         ws_xpixel := 0, ws_ypixel := 0 })

/-- ASCII case-insensitive string equality, modelling
`strcasecmp(a, b) == 0` (POSIX locale `tolower` only folds the ASCII
uppercase range, which is what `Char.toLower` does). -/
def strcaseEq (a b : String) : Bool :=
  a.data.map Char.toLower == b.data.map Char.toLower

/-- The comparison buffer `check_host_origin` rebuilds with `sprintf`
from the parsed origin: the address alone when the port is 80 or 443,
otherwise `address:port`. -/
def originBuf (address : String) (port : Int) : String :=
  if port = 80 ∨ port = 443 then address else address ++ ":" ++ toString port

/-- Translation of `check_host_origin` (protocol.c:86).  Inputs model the
libwebsockets calls: `origin_len` is `lws_hdr_total_length` of the
`Origin` header (0 when absent or empty, in which case `lws_hdr_copy`
returns no bytes and the function fails); `parsed` is the
`lws_parse_uri` outcome on the copied origin, `some (address, port)` on
success; `host` is the copied `Host` header, the empty string when the
header is absent or empty.  The port is elided from the comparison
buffer when it is 80 or 443; the final `strcasecmp` is `strcaseEq`. -/
def check_host_origin (origin_len : Nat) (parsed : Option (String × Int))
    (host : String) : Bool :=
  if origin_len = 0 then false
  else
    match parsed with
    | none => false
    | some ap =>
      let buf : String := originBuf ap.1 ap.2
      if host.length ≠ buf.length then false
      else decide (0 < host.length) && strcaseEq buf host

/-- Server-wide admission configuration read by the
`LWS_CALLBACK_FILTER_PROTOCOL_CONNECTION` case of `callback_tty`. -/
structure AdmissionCfg where
  once : Bool
  client_count : Int
  max_clients : Int
  check_origin : Bool
deriving Repr

/-- Translation of the `LWS_CALLBACK_FILTER_PROTOCOL_CONNECTION` case of
`callback_tty` (protocol.c:267).  `uri` is the copied request URI
(`none` when `lws_hdr_copy` fails), `ws_path` the configured web socket
path (`WS_PATH`), and the remaining inputs feed `check_host_origin`.
Returns the callback's return value: 1 refuses the upgrade, 0 admits. -/
def callback_filter (cfg : AdmissionCfg) (uri : Option String)
    (ws_path : String) (origin_len : Nat) (parsed : Option (String × Int))
    (host : String) : Int :=
  if cfg.once ∧ cfg.client_count > 0 then 1
  else if cfg.max_clients > 0 ∧ cfg.client_count = cfg.max_clients then 1
  else if uri ≠ some ws_path then 1
  else if cfg.check_origin ∧ check_host_origin origin_len parsed host = false
    then 1
  else 0

/-- The per-connection `struct tty_client` fields used by `protocol.c`
(buffers are byte lists, file descriptors and sizes are numbers; the lws
per-connection user memory is zero-filled, so `pid` and `pty` start at
0). -/
structure TtyClient where
  running : Bool
  initialized : Bool
  initial_cmd_index : Nat
  authenticated : Bool
  buffer : Option (List Nat)
  len : Nat
  pty : Nat
  pid : Int
  size : Winsize
  state : SlotState
  pty_len : Int
  pty_buffer : Option (List Nat)
deriving DecidableEq, Repr

/-- The client state set up by the `LWS_CALLBACK_ESTABLISHED` case of
`callback_tty` (protocol.c:287): flags cleared, handshake index zero,
no buffer, slot in `STATE_INIT`; `pid`, `pty` and `size` are the zeroes
of the freshly allocated user memory. -/
def establishedClient : TtyClient :=
  { running := false, initialized := false, initial_cmd_index := 0,
    authenticated := false, buffer := none, len := 0, pty := 0, pid := 0,
    size := { ws_row := 0, ws_col := 0, ws_xpixel := 0, ws_ypixel := 0 },
    state := SlotState.STATE_INIT, pty_len := 0, pty_buffer := none }

/-- The server-policy fields of `struct server` consulted by the session
code. -/
structure Server where
  credential : Option String
  readonly : Bool
deriving Repr

/-- Models the json-c library calls made on client frames.
`parse_winsize` maps the bytes handed to `parse_window_size` (the frame
payload after the tag byte) to the `columns`/`rows` lookup results.
`parse_auth` maps the bytes handed to `json_tokener_parse` in the
`JSON_DATA` case (the whole accumulated buffer, tag included) to the
`AuthToken` lookup: `none` when the parse fails or the field is absent,
`some none` when the field is present but `json_object_get_string`
returns NULL, `some (some tok)` when it yields the string `tok`. -/
structure JsonLib where
  parse_winsize : List Nat → WinsizeFields
  parse_auth : List Nat → Option (Option String)

/-- Environment of one `LWS_CALLBACK_RECEIVE` invocation: whether the
transport reports more fragments of the current message
(`lws_remaining_packet_payload(wsi) > 0 || !lws_is_final_fragment(wsi)`),
and the outcomes of the `write` to the pty, the `TIOCSWINSZ` ioctl and
`uv_thread_create`. -/
structure RecvEnv where
  moreFragments : Bool
  ptyWriteOk : Bool
  ioctlOk : Bool
  threadOk : Bool
deriving Repr

/-- Observable outcome of one `LWS_CALLBACK_RECEIVE` invocation:
the updated client, the byte runs written to the pty, the window sizes
passed to `TIOCSWINSZ`, the close status given to `lws_close_reason` (if
any), whether `tty_client_remove` ran, whether `uv_thread_create` was
called (the pty child is spawned by the created thread), and the
callback's return value (libwebsockets closes the connection whenever it
is nonzero). -/
structure RecvResult where
  client : TtyClient
  ptyWrites : List (List Nat)
  ioctls : List Winsize
  close : Option CloseStatus
  removed : Bool
  threadCreated : Bool
  ret : Int
deriving Repr

/-- Translation of the `LWS_CALLBACK_RECEIVE` case of `callback_tty`
(protocol.c:355).  The incoming fragment `inB` is appended to the
assembly buffer; the command byte is the first byte of the accumulated
buffer.  With a credential configured and the client unauthenticated,
any command other than `JSON_DATA` makes the callback return 1 (which
closes the connection) before the fragmentation check.  Note which exits
skip the buffer release at the end of the case: the read-only `INPUT`
path and the fragmentation path return 0 early and keep the buffer; the
close paths return without freeing it. -/
def callback_receive (server : Server) (jl : JsonLib) (env : RecvEnv)
    (client : TtyClient) (inB : List Nat) : RecvResult :=
  let buffer : List Nat := client.buffer.getD [] ++ inB
  let len : Nat :=
    match client.buffer with
    | none => inB.length
    | some _ => client.len + inB.length
  let c1 : TtyClient := { client with buffer := some buffer, len := len }
  let command : Nat := buffer.headD 0
  let noEffect : RecvResult :=
    { client := c1, ptyWrites := [], ioctls := [], close := none,
      removed := false, threadCreated := false, ret := 0 }
  if server.credential ≠ none ∧ c1.authenticated = false ∧
      command ≠ JSON_DATA then
    { noEffect with ret := 1 }
  else if env.moreFragments then
    noEffect
  else
    let freed : TtyClient := { c1 with buffer := none }
    if command = INPUT then
      if c1.pty = 0 then { noEffect with client := freed }
      else if server.readonly then noEffect
      else if env.ptyWriteOk then
        { noEffect with client := freed, ptyWrites := [buffer.tail] }
      else
        { noEffect with
          close := some CloseStatus.unexpectedCondition,
          removed := true,
          ret := -1 }
    else if command = RESIZE_TERMINAL then
      let pr := parse_window_size (jl.parse_winsize buffer.tail) c1.size
      let c2 : TtyClient := { freed with size := pr.2 }
      if pr.1 = true ∧ c1.pty > 0 then
        { noEffect with client := c2, ioctls := [pr.2] }
      else
        { noEffect with client := c2 }
    else if command = JSON_DATA then
      if c1.pid > 0 then { noEffect with client := freed }
      else
        match server.credential with
        | some cred =>
          let auth2 : Bool :=
            c1.authenticated ||
              (match jl.parse_auth buffer with
               | some (some tok) => tok = cred
               | _ => false)
          let c2 : TtyClient := { c1 with authenticated := auth2 }
          if auth2 = false then
            { noEffect with
              client := c2,
              close := some CloseStatus.policyViolation,
              removed := true,
              ret := -1 }
          else if env.threadOk then
            { noEffect with
              client := { c2 with buffer := none },
              threadCreated := true }
          else
            { noEffect with client := c2, threadCreated := true, ret := 1 }
        | none =>
          if env.threadOk then
            { noEffect with client := freed, threadCreated := true }
          else
            { noEffect with threadCreated := true, ret := 1 }
    else
      { noEffect with client := freed }

/-- Libuv status constants used by `read_cb`.  Libuv reports errors as
negated errno-style codes; only the distinctions `UV_EOF`, `UV_ENOBUFS`,
zero and other-negative matter to the code. -/
def UV_EOF : Int := -4095

/-- Libuv no-buffer-space status, skipped by `read_cb`. -/
def UV_ENOBUFS : Int := -105

/-- Translation of `read_cb` (protocol.c:183), the pty reader callback
running on the session's dedicated loop thread.  `nread` and `data` are
the uv read result.  When the client is not running the loop body is
skipped.  When the slot is still `STATE_READY` the thread enters
`uv_cond_wait`; no code in protocol.c ever signals the condition
variable, so the call never returns: this is modelled by `none`.
Otherwise the callback publishes into the slot: a positive read stores
the chunk and length, `UV_ENOBUFS` and zero reads leave the slot alone
(the `continue` path), and any other non-positive status stores length
zero with no buffer (the same length-zero publication as end-of-file). -/
def read_cb (client : TtyClient) (nread : Int) (data : List Nat) :
    Option TtyClient :=
  if client.running = false then some client
  else if client.state = SlotState.STATE_READY then none
  else if nread ≤ 0 then
    if nread = UV_ENOBUFS ∨ nread = 0 then some client
    else
      some { client with pty_len := 0, pty_buffer := none,
                         state := SlotState.STATE_READY }
  else
    some { client with pty_len := nread, pty_buffer := some data,
                       state := SlotState.STATE_READY }

/-- Socket writes observable on one session: the initial handshake
messages (identified by their index into `initial_cmds`) and `OUTPUT`
frames carrying a pty chunk. -/
inductive WriteEvt where
  | initialMsg : Nat → WriteEvt
  | output : List Nat → WriteEvt
deriving DecidableEq, Repr

/-- Order of the initial message list `initial_cmds` (protocol.c:29):
window title, then reconnect, then preferences.  Only its length and the
index order are used by `callback_tty`; `send_initial_message` formats
message `i` from the server policy. -/
def initial_cmds_len : Nat := 3

/-- Outcome of one `LWS_CALLBACK_SERVER_WRITEABLE` invocation. -/
structure WritableResult where
  client : TtyClient
  writes : List WriteEvt
  close : Option CloseStatus
  removed : Bool
  ret : Int
deriving Repr

/-- Translation of the `LWS_CALLBACK_SERVER_WRITEABLE` case of
`callback_tty` (protocol.c:317).  `emitOk` is whether the
`send_initial_message` write succeeds.  Until `initialized` is set the
handler emits initial message `initial_cmd_index` and advances the
index; when the index has reached the list length it only flips
`initialized`.  Once initialized, nothing happens unless the slot is
`STATE_READY`; a non-positive slot length removes the client and closes
(`NORMAL` exactly when the length is zero, `UNEXPECTED_CONDITION`
otherwise), and a positive one writes the chunk as an `OUTPUT` frame and
marks the slot `STATE_DONE` without signalling the reader. -/
def callback_writable (emitOk : Bool) (client : TtyClient) :
    WritableResult :=
  let noEffect : WritableResult :=
    { client := client, writes := [], close := none, removed := false,
      ret := 0 }
  if client.initialized = false then
    if client.initial_cmd_index = initial_cmds_len then
      { noEffect with client := { client with initialized := true } }
    else if emitOk = false then
      { noEffect with
        close := some CloseStatus.unexpectedCondition,
        removed := true,
        ret := -1 }
    else
      { noEffect with
        client :=
          { client with initial_cmd_index := client.initial_cmd_index + 1 },
        writes := [WriteEvt.initialMsg client.initial_cmd_index] }
  else if client.state ≠ SlotState.STATE_READY then noEffect
  else if client.pty_len ≤ 0 then
    { noEffect with
      close := some (if client.pty_len = 0 then CloseStatus.normal
                     else CloseStatus.unexpectedCondition),
      removed := true,
      ret := -1 }
  else
    { noEffect with
      client := { client with pty_buffer := none,
                              state := SlotState.STATE_DONE },
      writes := [WriteEvt.output (client.pty_buffer.getD [])] }

/-- Counters of the side effects of `tty_client_destroy`: signals sent to
the child (`kill`), child reaps (`waitpid`), pty descriptor closes,
`free` calls on the assembly buffer and on the pty buffer, and the
`uv_stop`/`uv_mutex_destroy`/`uv_cond_destroy`/`uv_loop_close`/`free`
teardown of the per-session loop, plus `tty_client_remove` calls. -/
structure DestroyEffects where
  kills : Nat
  reaps : Nat
  fdCloses : Nat
  bufferFrees : Nat
  ptyBufferFrees : Nat
  loopStops : Nat
  mutexDestroys : Nat
  condDestroys : Nat
  loopCloses : Nat
  loopFrees : Nat
  removes : Nat
deriving DecidableEq, Repr

/-- All-zero effect counters. -/
def DestroyEffects.zero : DestroyEffects :=
  { kills := 0, reaps := 0, fdCloses := 0, bufferFrees := 0,
    ptyBufferFrees := 0, loopStops := 0, mutexDestroys := 0,
    condDestroys := 0, loopCloses := 0, loopFrees := 0, removes := 0 }

/-- Translation of `tty_client_destroy` (protocol.c:130).  The
kill/wait/close block runs only when the client is running with a
positive pid, and clears `running`; the cleanup block after the label
runs unconditionally on every call.  The C code frees
`client->buffer`/`client->pty_buffer` when non-NULL but never resets the
pointers, so the model leaves the `Option` fields untouched and only
counts the `free` calls. -/
def tty_client_destroy (ce : TtyClient × DestroyEffects) :
    TtyClient × DestroyEffects :=
  let c := ce.1
  let e := ce.2
  let killed : Bool := c.running = true ∧ c.pid > 0
  let c2 : TtyClient := if killed then { c with running := false } else c
  let e2 : DestroyEffects :=
    if killed then
      { e with kills := e.kills + 1, reaps := e.reaps + 1,
               fdCloses := e.fdCloses + 1 }
    else e
  let e3 : DestroyEffects :=
    if c2.buffer ≠ none then { e2 with bufferFrees := e2.bufferFrees + 1 }
    else e2
  let e4 : DestroyEffects :=
    if c2.pty_buffer ≠ none then
      { e3 with ptyBufferFrees := e3.ptyBufferFrees + 1 }
    else e3
  (c2,
   { e4 with loopStops := e4.loopStops + 1,
             mutexDestroys := e4.mutexDestroys + 1,
             condDestroys := e4.condDestroys + 1,
             loopCloses := e4.loopCloses + 1,
             loopFrees := e4.loopFrees + 1,
             removes := e4.removes + 1 })

/-- Events driving the socket-write side of a session: a writable event
(with the outcome of the underlying `lws_write`), a pty read callback
completing on the loop thread (`read_cb`), and the spawn thread
(`thread_cb`, protocol.c:228) recording pid, pty and the running flag.
The `LWS_CALLBACK_RECEIVE` case performs no `lws_write` at all, so it
cannot contribute to the socket write order and is analysed separately
by `callback_receive`. -/
inductive SessEvent where
  | writable : Bool → SessEvent
  | ptyRead : Int → List Nat → SessEvent
  | spawn : Int → Nat → SessEvent
deriving Repr

/-- One step of the session write machinery.  A blocked pty reader
(`read_cb` = `none`) changes nothing on the socket side.  A writable
callback returning nonzero closes the connection, ending the trace
(`none`). -/
def sessStep (c : TtyClient) (ev : SessEvent) :
    Option (TtyClient × List WriteEvt) :=
  match ev with
  | SessEvent.ptyRead n d =>
    match read_cb c n d with
    | some c2 => some (c2, [])
    | none => some (c, [])
  | SessEvent.spawn pid pty =>
    some ({ c with pid := pid, pty := pty, running := true }, [])
  | SessEvent.writable ok =>
    let r := callback_writable ok c
    if r.ret = 0 then some (r.client, r.writes) else none

/-- Run a list of session events from a client state, accumulating the
socket writes; the trace stops when the session closes. -/
def runSess (c : TtyClient) : List SessEvent →
    Option TtyClient × List WriteEvt
  | [] => (some c, [])
  | ev :: evs =>
    match sessStep c ev with
    | none => (none, [])
    | some cw =>
      let rest := runSess cw.1 evs
      (rest.1, cw.2 ++ rest.2)

/-- Program counter of the pty reader thread: either waiting for libuv
to deliver the next read callback, or blocked inside `uv_cond_wait`
holding an unpublished read result.  Nothing in protocol.c signals the
condition variable, so there is no transition out of `blocked`. -/
inductive ReaderPC where
  | idle : ReaderPC
  | blocked : Int → List Nat → ReaderPC
deriving DecidableEq, Repr

/-- Combined state of a session's two tasks around the single-element
pty-to-socket slot: the shared client record, the reader thread's
position, and the `OUTPUT` payloads written to the socket so far. -/
structure SlotSys where
  client : TtyClient
  reader : ReaderPC
  outputs : List (List Nat)
deriving DecidableEq, Repr

/-- Actions of the two tasks on the slot: libuv delivering a pty read
result to the reader thread, and a writable callback on the socket
task. -/
inductive SlotAct where
  | deliver : Int → List Nat → SlotAct
  | writable : SlotAct
deriving DecidableEq, Repr

/-- One interleaving step.  `deliver` is enabled only while the reader
thread is idle (a thread blocked in `uv_cond_wait` cannot run its next
callback); it either publishes via `read_cb` or, when `read_cb` would
wait on the never-signalled condition variable, moves the reader to
`blocked`.  `writable` applies `callback_writable` (with a successful
socket write); closing the session is modelled as disabled here because
the C8 analysis only runs it on open sessions. -/
def slotStep (s : SlotSys) (a : SlotAct) : Option SlotSys :=
  match a with
  | SlotAct.deliver n d =>
    match s.reader with
    | ReaderPC.blocked _ _ => none
    | ReaderPC.idle =>
      match read_cb s.client n d with
      | some c2 => some { s with client := c2 }
      | none => some { s with reader := ReaderPC.blocked n d }
  | SlotAct.writable =>
    let r := callback_writable true s.client
    if r.ret = 0 then
      some { s with client := r.client,
                    outputs := s.outputs ++
                      (r.writes.filterMap (fun w =>
                        match w with
                        | WriteEvt.output p => some p
                        | _ => none)) }
    else none

/-- Run a list of slot actions; `none` when an action is disabled. -/
def runSlot (s : SlotSys) : List SlotAct → Option SlotSys
  | [] => some s
  | a :: as =>
    match slotStep s a with
    | none => none
    | some s2 => runSlot s2 as

/-! Concrete fixtures used by witnesses and counterexamples. -/

/-- Server policy with no credential, read-only mode on. -/
def srvReadonly : Server := { credential := none, readonly := true }

/-- Server policy with a credential configured. -/
def srvCred : Server := { credential := some "s3cret", readonly := false }

/-- Json oracle whose window-size parse always succeeds with 132x40 and
whose auth parse always fails; used to show the resize-after-readonly
bug fires even though the resize payload itself parses fine. -/
def jlResize : JsonLib :=
  { parse_winsize := fun _ => (some 132, some 40),
    parse_auth := fun _ => none }

/-- Json oracle whose auth parse always yields the token "nope". -/
def jlNope : JsonLib :=
  { parse_winsize := fun _ => (none, none),
    parse_auth := fun _ => some (some "nope") }

/-- Receive environment: complete final frame, all I/O succeeding. -/
def envOk : RecvEnv :=
  { moreFragments := false, ptyWriteOk := true, ioctlOk := true,
    threadOk := true }

/-- A running, initialized session with a spawned child (pid 5, pty fd
7) and an applied 80x24 window size. -/
def clientRun : TtyClient :=
  { establishedClient with
    running := true, initialized := true, pty := 7, pid := 5,
    size := { ws_row := 24, ws_col := 80, ws_xpixel := 0, ws_ypixel := 0 } }

/-- A running, initialized session whose slot is drained
(`STATE_DONE`), ready for the next pty read callback. -/
def clientDrained : TtyClient :=
  { establishedClient with
    running := true, initialized := true, pty := 7, pid := 5,
    state := SlotState.STATE_DONE }

/-- A running client with a non-NULL assembly buffer and a non-NULL pty
buffer, as `tty_client_destroy` can find it. -/
def clientLive : TtyClient :=
  { establishedClient with
    running := true, pid := 5, buffer := some [48],
    pty_buffer := some [65] }

/-! Claim theorems. -/

/-- C9: `parse_window_size` succeeds whenever both the `columns` and
`rows` fields are present, regardless of their numeric range, and stores
each value reduced modulo `2 ^ 16` into the 16-bit window-size fields
(so -1 is stored as 65535); if either field is absent it returns false
and leaves the stored window size unchanged. -/
theorem parse_window_size_spec (cols rows : Option Int) (size : Winsize) :
    (∀ c r, cols = some c → rows = some r →
      parse_window_size (cols, rows) size =
        (true,
         { ws_row := (r % (2 ^ 16 : Int)).toNat,
           ws_col := (c % (2 ^ 16 : Int)).toNat,
           ws_xpixel := 0, ws_ypixel := 0 })) ∧
    ((cols = none ∨ rows = none) →
      parse_window_size (cols, rows) size = (false, size)) := by
  constructor
  · rintro c r rfl rfl
    rfl
  · rintro (rfl | rfl)
    · rfl
    · cases cols <;> rfl

/-- Witness for C9: both parts of `parse_window_size_spec` at concrete
inputs; a columns value of -1 lands as 65535, and a missing columns
field leaves the size 5x6 untouched. -/
theorem parse_window_size_spec_witness :
    parse_window_size (some (-1), some 40)
        { ws_row := 5, ws_col := 6, ws_xpixel := 7, ws_ypixel := 8 } =
      (true, { ws_row := 40, ws_col := 65535, ws_xpixel := 0,
               ws_ypixel := 0 }) ∧
    parse_window_size (none, some 40)
        { ws_row := 5, ws_col := 6, ws_xpixel := 7, ws_ypixel := 8 } =
      (false, { ws_row := 5, ws_col := 6, ws_xpixel := 7,
                ws_ypixel := 8 }) := by
  constructor
  · have h := (parse_window_size_spec (some (-1)) (some 40)
      { ws_row := 5, ws_col := 6, ws_xpixel := 7, ws_ypixel := 8 }).1
      (-1) 40 rfl rfl
    exact h.trans (by decide)
  · exact (parse_window_size_spec none (some 40)
      { ws_row := 5, ws_col := 6, ws_xpixel := 7, ws_ypixel := 8 }).2
      (Or.inl rfl)

/-- Helper: case-insensitively equal strings have equal length. -/
theorem strcaseEq_length {a b : String} (h : strcaseEq a b = true) :
    a.length = b.length := by
  unfold strcaseEq at h
  have h2 : a.data.map Char.toLower = b.data.map Char.toLower :=
    eq_of_beq h
  have h3 := congrArg List.length h2
  simp only [List.length_map] at h3
  exact h3

/-- Helper: a string is nonempty iff its length is positive. -/
theorem string_pos_iff (s : String) : 0 < s.length ↔ s ≠ "" := by
  constructor
  · intro h hs
    subst hs
    exact absurd h (by decide)
  · intro h
    rcases s with ⟨d⟩
    cases d with
    | nil => exact absurd rfl h
    | cons x xs => exact Nat.succ_pos xs.length

/-- Helper: `check_host_origin` accepts exactly when the origin header
is present, the host header is nonempty, the origin parses, and the
rebuilt `host:port` buffer equals the host header up to ASCII case. -/
theorem check_host_origin_iff (origin_len : Nat)
    (parsed : Option (String × Int)) (host : String) :
    check_host_origin origin_len parsed host = true ↔
      (0 < origin_len ∧ host ≠ "" ∧ ∃ a p, parsed = some (a, p) ∧
        strcaseEq (originBuf a p) host = true) := by
  unfold check_host_origin
  by_cases h0 : origin_len = 0
  · simp [h0]
  · cases parsed with
    | none => simp [h0]
    | some ap =>
      rcases ap with ⟨a, p⟩
      simp only [h0, if_false]
      constructor
      · intro h
        by_cases hlen : host.length ≠ (originBuf a p).length
        · simp [hlen] at h
        · rw [if_neg hlen] at h
          simp only [Bool.and_eq_true, decide_eq_true_eq] at h
          refine ⟨Nat.pos_of_ne_zero h0, ?_, a, p, rfl, h.2⟩
          exact (string_pos_iff host).mp h.1
      · rintro ⟨-, hne, a', p', hap, heq⟩
        injection hap with hap
        cases congrArg Prod.fst hap
        cases congrArg Prod.snd hap
        have hlen : ¬ host.length ≠ (originBuf a p).length := by
          simp [strcaseEq_length heq]
        rw [if_neg hlen]
        simp only [Bool.and_eq_true, decide_eq_true_eq]
        exact ⟨(string_pos_iff host).mpr hne, heq⟩

/-- C6: the pre-upgrade admission filter refuses (returns 1) exactly
when `once` is set with at least one client, or `max_clients` is
positive and already reached, or the request path differs from the
configured web socket path, or origin checking is on and the Origin
host:port (port elided when 80 or 443) does not case-insensitively equal
the (nonempty) Host header; otherwise it admits (returns 0). -/
theorem admission_refusal_spec (cfg : AdmissionCfg) (uri : Option String)
    (ws_path : String) (origin_len : Nat) (parsed : Option (String × Int))
    (host : String) :
    (callback_filter cfg uri ws_path origin_len parsed host = 0 ∨
     callback_filter cfg uri ws_path origin_len parsed host = 1) ∧
    (callback_filter cfg uri ws_path origin_len parsed host = 1 ↔
      ((cfg.once = true ∧ 1 ≤ cfg.client_count) ∨
       (0 < cfg.max_clients ∧ cfg.client_count = cfg.max_clients) ∨
       uri ≠ some ws_path ∨
       (cfg.check_origin = true ∧
         ¬ (0 < origin_len ∧ host ≠ "" ∧ ∃ a p, parsed = some (a, p) ∧
             strcaseEq (originBuf a p) host = true)))) := by
  have hco := check_host_origin_iff origin_len parsed host
  unfold callback_filter
  split_ifs with h1 h2 h3 h4
  · exact ⟨Or.inr rfl, iff_of_true rfl (Or.inl ⟨h1.1, by omega⟩)⟩
  · exact ⟨Or.inr rfl, iff_of_true rfl (Or.inr (Or.inl ⟨h2.1, h2.2⟩))⟩
  · exact ⟨Or.inr rfl, iff_of_true rfl (Or.inr (Or.inr (Or.inl h3)))⟩
  · refine ⟨Or.inr rfl, iff_of_true rfl (Or.inr (Or.inr (Or.inr
      ⟨h4.1, ?_⟩)))⟩
    intro hm
    rw [← hco] at hm
    rw [h4.2] at hm
    exact Bool.false_ne_true hm
  · refine ⟨Or.inl rfl, iff_of_false (by omega) ?_⟩
    rintro ((⟨ho, hc⟩ | ⟨hm, hc⟩ | hu | ⟨hc, hm⟩))
    · exact h1 ⟨ho, by omega⟩
    · exact h2 ⟨hm, hc⟩
    · exact h3 hu
    · refine h4 ⟨hc, ?_⟩
      cases hb : check_host_origin origin_len parsed host
      · rfl
      · exact absurd (hco.mp hb) hm

/-- Witness for C6: `admission_refusal_spec` applied at a concrete
refused attempt (`once` with one client already connected). -/
theorem admission_refusal_spec_witness :
    callback_filter
      { once := true, client_count := 1, max_clients := 0,
        check_origin := false }
      (some "/ws") "/ws" 0 none "h" = 1 :=
  (admission_refusal_spec
    { once := true, client_count := 1, max_clients := 0,
      check_origin := false }
    (some "/ws") "/ws" 0 none "h").2.mpr (Or.inl ⟨rfl, by decide⟩)

/-- C1 (code bug): in read-only mode an `INPUT` frame is indeed ignored
with the session left open, but the read-only path returns without
releasing the assembly buffer, so the next `RESIZE_TERMINAL` frame is
appended to the stale `INPUT` bytes, dispatched as `INPUT` again, and
the resize is never parsed nor applied: no `TIOCSWINSZ` ioctl happens
and the stored window size is unchanged, even though the resize payload
parses successfully (the oracle accepts every payload as 132x40).  A
fresh read-only session, by contrast, does apply the same resize
frame. -/
theorem readonly_input_then_resize_dropped :
    (let r1 := callback_receive srvReadonly jlResize envOk clientRun
        [48, 104, 105]
     let r2 := callback_receive srvReadonly jlResize envOk r1.client
        [49, 106]
     r1.ptyWrites = [] ∧ r1.ret = 0 ∧ r1.close = none ∧
     r1.removed = false ∧
     r1.client.buffer = some [48, 104, 105] ∧
     r2.ioctls = [] ∧ r2.client.size = clientRun.size ∧
     r2.close = none ∧
     r2.client.buffer = some [48, 104, 105, 49, 106]) ∧
    (let r := callback_receive srvReadonly jlResize envOk clientRun
        [49, 106]
     r.ioctls = [{ ws_row := 40, ws_col := 132, ws_xpixel := 0,
                   ws_ypixel := 0 }]) := by
  decide

/-- C3 (code bug): after a pty read error (`nread` = -5: negative,
neither `UV_EOF` nor `UV_ENOBUFS`), `read_cb` publishes slot length zero
exactly as it does for end-of-file, so the writable handler closes the
session with `NORMAL` (1000) instead of `UNEXPECTED_CONDITION` (1011);
the 1011 branch of the `pty_len == 0` conditional is unreachable because
`pty_len` is never negative.  No `OUTPUT` frame is written on this
path. -/
theorem pty_read_error_closes_normal :
    (read_cb clientDrained (-5) []).map (fun c =>
        let w := callback_writable true c
        (c.pty_len, w.close, w.ret, w.writes)) =
      some (0, some CloseStatus.normal, -1, []) := by
  decide

/-- C4 (code bug): `tty_client_destroy` sends the signal, reaps the
child and closes the pty descriptor at most once (the `running`/`pid`
guard), but the cleanup section after the label runs on every call and
the freed pointers are never reset, so a second call frees the assembly
buffer, the pty buffer and the loop again and re-destroys the mutex,
condition variable and loop: calling destruction twice is not
observationally identical to calling it once. -/
theorem destroy_twice_not_idempotent :
    (let once := tty_client_destroy (clientLive, DestroyEffects.zero)
     let twice := tty_client_destroy once
     twice.2.kills = 1 ∧ twice.2.reaps = 1 ∧ twice.2.fdCloses = 1 ∧
     once.2.bufferFrees = 1 ∧ once.2.ptyBufferFrees = 1 ∧
     once.2.mutexDestroys = 1 ∧
     twice.2.bufferFrees = 2 ∧ twice.2.ptyBufferFrees = 2 ∧
     twice.2.loopStops = 2 ∧ twice.2.mutexDestroys = 2 ∧
     twice.2.condDestroys = 2 ∧ twice.2.loopCloses = 2 ∧
     twice.2.loopFrees = 2 ∧ twice ≠ once) := by
  decide

set_option maxHeartbeats 2000000

/-- C2: with a credential configured and the session not yet
authenticated, the spawn thread is created only on a complete
`JSON_DATA` frame whose parsed `AuthToken` equals the credential (and
`authenticated` can only become true through such a frame); a complete
`JSON_DATA` frame whose parse does not yield the credential — malformed
JSON, missing field, NULL or wrong token — removes the client from the
registry and closes with policy violation (1008), with no thread
created. -/
theorem credential_auth_gate_spec (server : Server) (jl : JsonLib)
    (env : RecvEnv) (client : TtyClient) (inB : List Nat) (cred : String)
    (hcred : server.credential = some cred)
    (hauth : client.authenticated = false)
    (hpid : client.pid ≤ 0) :
    ((callback_receive server jl env client inB).threadCreated = true →
      (client.buffer.getD [] ++ inB).headD 0 = JSON_DATA ∧
      jl.parse_auth (client.buffer.getD [] ++ inB) = some (some cred)) ∧
    ((callback_receive server jl env client inB).client.authenticated =
        true →
      jl.parse_auth (client.buffer.getD [] ++ inB) = some (some cred)) ∧
    ((client.buffer.getD [] ++ inB).headD 0 = JSON_DATA →
      env.moreFragments = false →
      jl.parse_auth (client.buffer.getD [] ++ inB) ≠ some (some cred) →
      (callback_receive server jl env client inB).removed = true ∧
      (callback_receive server jl env client inB).close =
        some CloseStatus.policyViolation ∧
      (callback_receive server jl env client inB).threadCreated = false ∧
      (callback_receive server jl env client inB).ret = -1) := by
  unfold callback_receive
  simp only [hcred, hauth]
  rcases hpa : jl.parse_auth (client.buffer.getD [] ++ inB) with _ | tok
  · split_ifs <;> simp_all [INPUT, RESIZE_TERMINAL, JSON_DATA] <;> omega
  · rcases tok with _ | t
    · split_ifs <;> simp_all [INPUT, RESIZE_TERMINAL, JSON_DATA] <;> omega
    · split_ifs <;> simp_all [INPUT, RESIZE_TERMINAL, JSON_DATA] <;> omega

/-- Witness for C2: a fresh session on a server with credential
"s3cret" receives a complete `JSON_DATA` frame parsing to token "nope":
removed, closed 1008, no thread created. -/
theorem credential_auth_gate_spec_witness :
    (callback_receive srvCred jlNope envOk establishedClient
      [123, 125]).removed = true ∧
    (callback_receive srvCred jlNope envOk establishedClient
      [123, 125]).close = some CloseStatus.policyViolation ∧
    (callback_receive srvCred jlNope envOk establishedClient
      [123, 125]).threadCreated = false ∧
    (callback_receive srvCred jlNope envOk establishedClient
      [123, 125]).ret = -1 := by
  have h := (credential_auth_gate_spec srvCred jlNope envOk
    establishedClient [123, 125] "s3cret" rfl rfl (by decide)).2.2
    (by decide) rfl (by decide)
  exact ⟨h.1, h.2.1, h.2.2.1, h.2.2.2⟩

/-- C7 (counterexample): a frame with the unknown tag byte 88 arriving
on a credential-configured, not yet authenticated session is not
"logged and discarded with the session left open": the pre-auth gate
makes the callback return 1, and libwebsockets closes the connection on
any nonzero return. -/
theorem unknown_tag_unauth_closes :
    establishedClient.authenticated = false ∧
    (88 : Nat) ≠ INPUT ∧ (88 : Nat) ≠ RESIZE_TERMINAL ∧
    (88 : Nat) ≠ JSON_DATA ∧
    (callback_receive srvCred jlNope envOk establishedClient
      [88, 1]).ret = 1 := by
  decide

/-- C7 (amended): on a session with no credential configured or already
authenticated, a complete frame whose tag byte is none of `INPUT`,
`RESIZE_TERMINAL`, `JSON_DATA` is discarded — the buffer is released,
nothing is written to the pty or socket, no close is issued, the
callback returns 0 and the session continues; with a credential
configured and the session not yet authenticated, any frame whose tag is
not `JSON_DATA` (unknown tags included) makes the callback return 1,
which closes the connection. -/
theorem unknown_tag_spec (server : Server) (jl : JsonLib) (env : RecvEnv)
    (client : TtyClient) (inB : List Nat) :
    ((server.credential = none ∨ client.authenticated = true) →
      env.moreFragments = false →
      (client.buffer.getD [] ++ inB).headD 0 ≠ INPUT →
      (client.buffer.getD [] ++ inB).headD 0 ≠ RESIZE_TERMINAL →
      (client.buffer.getD [] ++ inB).headD 0 ≠ JSON_DATA →
      (callback_receive server jl env client inB).ret = 0 ∧
      (callback_receive server jl env client inB).close = none ∧
      (callback_receive server jl env client inB).removed = false ∧
      (callback_receive server jl env client inB).ptyWrites = [] ∧
      (callback_receive server jl env client inB).ioctls = [] ∧
      (callback_receive server jl env client inB).threadCreated = false ∧
      (callback_receive server jl env client inB).client.buffer = none) ∧
    (server.credential ≠ none → client.authenticated = false →
      (client.buffer.getD [] ++ inB).headD 0 ≠ JSON_DATA →
      (callback_receive server jl env client inB).ret = 1) := by
  constructor
  · rintro hok hfrag h1 h2 h3
    rcases hok with hok | hok <;>
    · unfold callback_receive
      simp only [hok]
      split_ifs <;> simp_all
  · rintro hcred hauth hcmd
    unfold callback_receive
    dsimp only
    rw [if_pos (show _ ∧ _ ∧ _ from ⟨hcred, hauth, hcmd⟩)]

/-- Witness for C7: `unknown_tag_spec` at a concrete input — a running
read-only session with no credential receives a complete frame tagged
88; it is discarded, the buffer is freed and the session stays open. -/
theorem unknown_tag_spec_witness :
    (callback_receive srvReadonly jlResize envOk clientRun
      [88, 1]).ret = 0 ∧
    (callback_receive srvReadonly jlResize envOk clientRun
      [88, 1]).close = none ∧
    (callback_receive srvReadonly jlResize envOk clientRun
      [88, 1]).client.buffer = none := by
  have h := (unknown_tag_spec srvReadonly jlResize envOk clientRun
    [88, 1]).1 (Or.inl rfl) rfl (by decide) (by decide) (by decide)
  exact ⟨h.1, h.2.1, h.2.2.2.2.2.2⟩

/-- C10 (counterexample): an `INPUT` frame arriving while the pty handle
is still zero is not always silently discarded with the session
continuing: on a credential-configured, unauthenticated session the
pre-auth gate fires first and the callback returns 1, closing the
connection. -/
theorem input_before_spawn_unauth_closes :
    establishedClient.pty = 0 ∧
    (callback_receive srvCred jlNope envOk establishedClient
      [48, 104]).ret = 1 := by
  decide

/-- C10 (amended): on a session with no credential configured or
already authenticated, a complete `INPUT` frame arriving while the pty
handle is still zero is silently discarded: nothing is written to the
pty, nothing is buffered for later delivery (the assembly buffer is
released), no error or close is produced, and the callback returns 0 so
the session continues.  Otherwise the pre-auth gate closes the
connection. -/
theorem input_before_spawn_spec (server : Server) (jl : JsonLib)
    (env : RecvEnv) (client : TtyClient) (inB : List Nat) :
    ((server.credential = none ∨ client.authenticated = true) →
      env.moreFragments = false →
      (client.buffer.getD [] ++ inB).headD 0 = INPUT →
      client.pty = 0 →
      (callback_receive server jl env client inB).ret = 0 ∧
      (callback_receive server jl env client inB).close = none ∧
      (callback_receive server jl env client inB).removed = false ∧
      (callback_receive server jl env client inB).ptyWrites = [] ∧
      (callback_receive server jl env client inB).ioctls = [] ∧
      (callback_receive server jl env client inB).threadCreated = false ∧
      (callback_receive server jl env client inB).client.buffer = none) ∧
    (server.credential ≠ none → client.authenticated = false →
      (client.buffer.getD [] ++ inB).headD 0 = INPUT →
      (callback_receive server jl env client inB).ret = 1) := by
  constructor
  · rintro hok hfrag hcmd hpty
    rcases hok with hok | hok <;>
    · unfold callback_receive
      simp only [hok]
      split_ifs <;> simp_all [INPUT, RESIZE_TERMINAL, JSON_DATA]
  · rintro hcred hauth hcmd
    unfold callback_receive
    dsimp only
    rw [if_pos (show _ ∧ _ ∧ _ from
      ⟨hcred, hauth, by simp [INPUT, JSON_DATA] at hcmd ⊢; omega⟩)]

/-- Witness for C10: a fresh credential-free session (pty still 0)
receives a complete `INPUT` frame; it is dropped, the buffer freed, the
session continues. -/
theorem input_before_spawn_spec_witness :
    (callback_receive srvReadonly jlResize envOk establishedClient
      [48, 104, 105]).ret = 0 ∧
    (callback_receive srvReadonly jlResize envOk establishedClient
      [48, 104, 105]).ptyWrites = [] ∧
    (callback_receive srvReadonly jlResize envOk establishedClient
      [48, 104, 105]).client.buffer = none := by
  have h := (input_before_spawn_spec srvReadonly jlResize envOk
    establishedClient [48, 104, 105]).1 (Or.inl rfl) rfl (by decide) rfl
  exact ⟨h.1, h.2.2.2.1, h.2.2.2.2.2.2⟩

/-- Shape of a correct per-session socket write trace: a prefix of the
three initial messages, in index order and each at most once, followed
by `OUTPUT` frames only, with outputs possible only once all three
initial messages are out. -/
def goodTrace (ws : List WriteEvt) : Prop :=
  ∃ k, k ≤ 3 ∧ ∃ outs,
    ws = (List.range k).map WriteEvt.initialMsg ++ outs ∧
    (∀ w ∈ outs, ∃ p, w = WriteEvt.output p) ∧ (outs ≠ [] → k = 3)

/-- Invariant tying a client state to the socket writes emitted so far:
before `initialized` is set, exactly the first `initial_cmd_index`
initial messages (and nothing else) have been written; afterwards the
index is pinned at 3 and everything past the three initial messages is
an `OUTPUT` frame. -/
def handshakeInv (c : TtyClient) (ws : List WriteEvt) : Prop :=
  (c.initialized = false → c.initial_cmd_index ≤ 3 ∧
    ws = (List.range c.initial_cmd_index).map WriteEvt.initialMsg) ∧
  (c.initialized = true → c.initial_cmd_index = 3 ∧
    ∃ outs, ws = (List.range 3).map WriteEvt.initialMsg ++ outs ∧
      ∀ w ∈ outs, ∃ p, w = WriteEvt.output p)

/-- Helper: the invariant implies the trace shape. -/
theorem handshakeInv_goodTrace {c : TtyClient} {ws : List WriteEvt}
    (h : handshakeInv c ws) : goodTrace ws := by
  cases hi : c.initialized
  · obtain ⟨hk, hws⟩ := h.1 hi
    exact ⟨c.initial_cmd_index, hk, [],
      by simpa using hws, by simp, by simp⟩
  · obtain ⟨hk, outs, hws, houts⟩ := h.2 hi
    exact ⟨3, by omega, outs, hws, houts, fun _ => rfl⟩

/-- Helper: `read_cb` touches only the slot fields. -/
theorem read_cb_pres {c c2 : TtyClient} {n : Int} {d : List Nat}
    (h : read_cb c n d = some c2) :
    c2.initialized = c.initialized ∧
    c2.initial_cmd_index = c.initial_cmd_index := by
  unfold read_cb at h
  split_ifs at h
  all_goals first
    | (injection h with h; subst h; exact ⟨rfl, rfl⟩)
    | exact Option.noConfusion h

/-- Helper: `callback_writable` when the handshake index has reached
the end of the list: flip `initialized`, write nothing. -/
theorem cw_finish (emitOk : Bool) (c : TtyClient)
    (h1 : c.initialized = false)
    (h2 : c.initial_cmd_index = initial_cmds_len) :
    callback_writable emitOk c =
      { client := { c with initialized := true }, writes := [],
        close := none, removed := false, ret := 0 } := by
  unfold callback_writable
  rw [if_pos h1, if_pos h2]

/-- Helper: `callback_writable` when an initial message emit fails:
remove, close 1011, return -1. -/
theorem cw_emit_fail (c : TtyClient)
    (h1 : c.initialized = false)
    (h2 : c.initial_cmd_index ≠ initial_cmds_len) :
    callback_writable false c =
      { client := c, writes := [],
        close := some CloseStatus.unexpectedCondition, removed := true,
        ret := -1 } := by
  unfold callback_writable
  rw [if_pos h1, if_neg h2, if_pos rfl]

/-- Helper: `callback_writable` emitting the next initial message and
advancing the handshake index. -/
theorem cw_emit (c : TtyClient)
    (h1 : c.initialized = false)
    (h2 : c.initial_cmd_index ≠ initial_cmds_len) :
    callback_writable true c =
      { client :=
          { c with initial_cmd_index := c.initial_cmd_index + 1 },
        writes := [WriteEvt.initialMsg c.initial_cmd_index],
        close := none, removed := false, ret := 0 } := by
  unfold callback_writable
  rw [if_pos h1, if_neg h2, if_neg (by simp)]

/-- Helper: `callback_writable` after the handshake with the slot not
ready: no effect. -/
theorem cw_not_ready (emitOk : Bool) (c : TtyClient)
    (h1 : c.initialized = true)
    (h2 : c.state ≠ SlotState.STATE_READY) :
    callback_writable emitOk c =
      { client := c, writes := [], close := none, removed := false,
        ret := 0 } := by
  unfold callback_writable
  rw [if_neg (by simp [h1]), if_pos h2]

/-- Helper: `callback_writable` on a ready slot with non-positive
length: remove and close (1000 iff the length is zero). -/
theorem cw_close (emitOk : Bool) (c : TtyClient)
    (h1 : c.initialized = true)
    (h2 : c.state = SlotState.STATE_READY)
    (h3 : c.pty_len ≤ 0) :
    callback_writable emitOk c =
      { client := c, writes := [],
        close := some (if c.pty_len = 0 then CloseStatus.normal
                       else CloseStatus.unexpectedCondition),
        removed := true, ret := -1 } := by
  unfold callback_writable
  rw [if_neg (by simp [h1]), if_neg (by simp [h2]), if_pos h3]

/-- Helper: `callback_writable` on a ready slot with positive length:
write the chunk as an `OUTPUT` frame and mark the slot drained. -/
theorem cw_output (emitOk : Bool) (c : TtyClient)
    (h1 : c.initialized = true)
    (h2 : c.state = SlotState.STATE_READY)
    (h3 : ¬ c.pty_len ≤ 0) :
    callback_writable emitOk c =
      { client := { c with pty_buffer := none,
                           state := SlotState.STATE_DONE },
        writes := [WriteEvt.output (c.pty_buffer.getD [])],
        close := none, removed := false, ret := 0 } := by
  unfold callback_writable
  rw [if_neg (by simp [h1]), if_neg (by simp [h2]), if_neg h3]

/-- Helper: `sessStep` on a writable event finishing the handshake. -/
theorem ss_finish (ok : Bool) (c : TtyClient)
    (h1 : c.initialized = false)
    (h2 : c.initial_cmd_index = initial_cmds_len) :
    sessStep c (SessEvent.writable ok) =
      some ({ c with initialized := true }, []) := by
  simp only [sessStep]
  rw [cw_finish ok c h1 h2]
  rfl

/-- Helper: `sessStep` on a writable event whose initial-message emit
fails: the callback returns -1 and the session closes. -/
theorem ss_emit_fail (c : TtyClient)
    (h1 : c.initialized = false)
    (h2 : c.initial_cmd_index ≠ initial_cmds_len) :
    sessStep c (SessEvent.writable false) = none := by
  simp only [sessStep]
  rw [cw_emit_fail c h1 h2]
  rfl

/-- Helper: `sessStep` on a writable event emitting the next initial
message. -/
theorem ss_emit (c : TtyClient)
    (h1 : c.initialized = false)
    (h2 : c.initial_cmd_index ≠ initial_cmds_len) :
    sessStep c (SessEvent.writable true) =
      some ({ c with initial_cmd_index := c.initial_cmd_index + 1 },
            [WriteEvt.initialMsg c.initial_cmd_index]) := by
  simp only [sessStep]
  rw [cw_emit c h1 h2]
  rfl

/-- Helper: `sessStep` on a writable event with the slot not ready. -/
theorem ss_not_ready (ok : Bool) (c : TtyClient)
    (h1 : c.initialized = true)
    (h2 : c.state ≠ SlotState.STATE_READY) :
    sessStep c (SessEvent.writable ok) = some (c, []) := by
  simp only [sessStep]
  rw [cw_not_ready ok c h1 h2]
  rfl

/-- Helper: `sessStep` on a writable event with a non-positive slot
length: the callback returns -1 and the session closes. -/
theorem ss_close (ok : Bool) (c : TtyClient)
    (h1 : c.initialized = true)
    (h2 : c.state = SlotState.STATE_READY)
    (h3 : c.pty_len ≤ 0) :
    sessStep c (SessEvent.writable ok) = none := by
  simp only [sessStep]
  rw [cw_close ok c h1 h2 h3]
  rfl

/-- Helper: `sessStep` on a writable event writing one `OUTPUT`
chunk. -/
theorem ss_output (ok : Bool) (c : TtyClient)
    (h1 : c.initialized = true)
    (h2 : c.state = SlotState.STATE_READY)
    (h3 : ¬ c.pty_len ≤ 0) :
    sessStep c (SessEvent.writable ok) =
      some ({ c with pty_buffer := none, state := SlotState.STATE_DONE },
            [WriteEvt.output (c.pty_buffer.getD [])]) := by
  simp only [sessStep]
  rw [cw_output ok c h1 h2 h3]
  rfl

/-- Helper: transfer of the invariant along equal handshake fields. -/
theorem handshakeInv_congr {c c2 : TtyClient} {ws : List WriteEvt}
    (hini : c2.initialized = c.initialized)
    (hidx : c2.initial_cmd_index = c.initial_cmd_index)
    (h : handshakeInv c ws) : handshakeInv c2 ws := by
  unfold handshakeInv at h ⊢
  rw [hini, hidx]
  exact h

/-- Helper: every session-event step preserves `handshakeInv`,
appending the step's writes to the trace. -/
theorem sessStep_inv {c c2 : TtyClient} {ev : SessEvent}
    {w ws : List WriteEvt}
    (hst : sessStep c ev = some (c2, w)) (h : handshakeInv c ws) :
    handshakeInv c2 (ws ++ w) := by
  cases ev with
  | ptyRead n d =>
    simp only [sessStep] at hst
    cases hrc : read_cb c n d with
    | none =>
      rw [hrc] at hst
      simp only [Option.some.injEq, Prod.mk.injEq] at hst
      obtain ⟨hc, hw⟩ := hst
      subst hc
      subst hw
      simpa using h
    | some c3 =>
      rw [hrc] at hst
      simp only [Option.some.injEq, Prod.mk.injEq] at hst
      obtain ⟨hc, hw⟩ := hst
      subst hc
      subst hw
      obtain ⟨hini, hidx⟩ := read_cb_pres hrc
      simp only [List.append_nil]
      exact handshakeInv_congr hini hidx h
  | spawn pid pty =>
    simp only [sessStep] at hst
    simp only [Option.some.injEq, Prod.mk.injEq] at hst
    obtain ⟨hc, hw⟩ := hst
    subst hc
    subst hw
    simp only [List.append_nil]
    exact handshakeInv_congr rfl rfl h
  | writable ok =>
    by_cases h1 : c.initialized = false
    · by_cases h2 : c.initial_cmd_index = initial_cmds_len
      · rw [ss_finish ok c h1 h2] at hst
        injection hst with hp
        injection hp with hc hw
        subst hc
        subst hw
        obtain ⟨hk, hws⟩ := h.1 h1
        have h2n : c.initial_cmd_index = 3 := h2
        constructor
        · intro hf
          simp at hf
        · intro _
          exact ⟨h2n, [], by simp [hws, h2n], by simp⟩
      · cases ok with
        | false =>
          rw [ss_emit_fail c h1 h2] at hst
          exact Option.noConfusion hst
        | true =>
          rw [ss_emit c h1 h2] at hst
          injection hst with hp
          injection hp with hc hw
          subst hc
          subst hw
          obtain ⟨hk, hws⟩ := h.1 h1
          have h2n : c.initial_cmd_index ≠ 3 := h2
          constructor
          · intro _
            refine ⟨?_, ?_⟩
            · show c.initial_cmd_index + 1 ≤ 3
              omega
            show ws ++ [WriteEvt.initialMsg c.initial_cmd_index] =
              (List.range (c.initial_cmd_index + 1)).map WriteEvt.initialMsg
            rw [List.range_succ]
            simp [hws]
          · intro ht
            simp [h1] at ht
    · have h1t : c.initialized = true := by
        cases hini : c.initialized
        · exact absurd hini h1
        · rfl
      by_cases h2 : c.state = SlotState.STATE_READY
      · by_cases h3 : c.pty_len ≤ 0
        · rw [ss_close ok c h1t h2 h3] at hst
          exact Option.noConfusion hst
        · rw [ss_output ok c h1t h2 h3] at hst
          injection hst with hp
          injection hp with hc hw
          subst hc
          subst hw
          obtain ⟨h3idx, outs, hws, houts⟩ := h.2 h1t
          constructor
          · intro hf
            simp [h1t] at hf
          · intro _
            refine ⟨h3idx,
              outs ++ [WriteEvt.output (c.pty_buffer.getD [])],
              by simp [hws], ?_⟩
            intro x hx
            rcases List.mem_append.mp hx with hx | hx
            · exact houts x hx
            · rcases List.mem_singleton.mp hx with rfl
              exact ⟨_, rfl⟩
      · rw [ss_not_ready ok c h1t h2] at hst
        injection hst with hp
        injection hp with hc hw
        subst hc
        subst hw
        simpa using h

/-- Helper: running any event list from an invariant-satisfying state
yields a write trace of the correct shape. -/
theorem runSess_good (evs : List SessEvent) :
    ∀ c ws0, handshakeInv c ws0 →
      goodTrace (ws0 ++ (runSess c evs).2) := by
  induction evs with
  | nil =>
    intro c ws0 h
    simpa [runSess] using handshakeInv_goodTrace h
  | cons ev evs ih =>
    intro c ws0 h
    cases hst : sessStep c ev with
    | none =>
      simp only [runSess, hst]
      simpa using handshakeInv_goodTrace h
    | some cw =>
      have h2 := @sessStep_inv c cw.1 ev cw.2 ws0 (by rw [hst]) h
      have h3 := ih cw.1 (ws0 ++ cw.2) h2
      simpa [runSess, hst, List.append_assoc] using h3

/-- C5: from a freshly established session, every socket write trace
consists of the initial messages 0, 1, 2 in order — each written at most
once, all three written before any `OUTPUT` frame — and the handshake
index never decreases on any step (the receive path never touches
it). -/
theorem initial_message_order :
    (∀ evs : List SessEvent,
      goodTrace (runSess establishedClient evs).2) ∧
    (∀ c ev c2 w, sessStep c ev = some (c2, w) →
      c.initial_cmd_index ≤ c2.initial_cmd_index) ∧
    (∀ server jl env c inB,
      (callback_receive server jl env c inB).client.initial_cmd_index =
        c.initial_cmd_index) := by
  refine ⟨?_, ?_, ?_⟩
  · intro evs
    have h0 : handshakeInv establishedClient [] := by
      constructor
      · intro _
        exact ⟨by decide, by simp [establishedClient]⟩
      · intro habs
        exact absurd habs (by simp [establishedClient])
    simpa using runSess_good evs establishedClient [] h0
  · intro c ev c2 w hst
    cases ev with
    | ptyRead n d =>
      simp only [sessStep] at hst
      cases hrc : read_cb c n d with
      | none =>
        rw [hrc] at hst
        simp only [Option.some.injEq, Prod.mk.injEq] at hst
        obtain ⟨hc, -⟩ := hst
        subst hc
        exact le_refl _
      | some c3 =>
        rw [hrc] at hst
        simp only [Option.some.injEq, Prod.mk.injEq] at hst
        obtain ⟨hc, -⟩ := hst
        subst hc
        exact le_of_eq (read_cb_pres hrc).2.symm
    | spawn pid pty =>
      simp only [sessStep] at hst
      simp only [Option.some.injEq, Prod.mk.injEq] at hst
      obtain ⟨hc, -⟩ := hst
      subst hc
      exact le_refl _
    | writable ok =>
      by_cases h1 : c.initialized = false
      · by_cases h2 : c.initial_cmd_index = initial_cmds_len
        · rw [ss_finish ok c h1 h2] at hst
          injection hst with hp
          injection hp with hc hw
          subst hc
          exact le_refl _
        · cases ok with
          | false =>
            rw [ss_emit_fail c h1 h2] at hst
            exact Option.noConfusion hst
          | true =>
            rw [ss_emit c h1 h2] at hst
            injection hst with hp
            injection hp with hc hw
            subst hc
            exact Nat.le_succ _
      · have h1t : c.initialized = true := by
          cases hini : c.initialized
          · exact absurd hini h1
          · rfl
        by_cases h2 : c.state = SlotState.STATE_READY
        · by_cases h3 : c.pty_len ≤ 0
          · rw [ss_close ok c h1t h2 h3] at hst
            exact Option.noConfusion hst
          · rw [ss_output ok c h1t h2 h3] at hst
            injection hst with hp
            injection hp with hc hw
            subst hc
            exact le_refl _
        · rw [ss_not_ready ok c h1t h2] at hst
          injection hst with hp
          injection hp with hc hw
          subst hc
          exact le_refl _
  · intro server jl env c inB
    cases hsc : server.credential with
    | none =>
      unfold callback_receive
      rw [hsc]
      dsimp only
      split_ifs <;> rfl
    | some cred =>
      unfold callback_receive
      rw [hsc]
      dsimp only
      split_ifs <;> rfl

/-- Witness for C5: `initial_message_order` applied to the first
writable event of a fresh session, which emits initial message 0 and
advances the index from 0 to 1. -/
theorem initial_message_order_witness :
    establishedClient.initial_cmd_index ≤
      ({ establishedClient with
         initial_cmd_index := 1 } : TtyClient).initial_cmd_index :=
  initial_message_order.2.1 establishedClient (SessEvent.writable true)
    { establishedClient with initial_cmd_index := 1 }
    [WriteEvt.initialMsg 0] (by decide)

/-- A running, initialized slot-system client ready for pty traffic. -/
def slotClient : TtyClient :=
  { establishedClient with
    running := true, initialized := true, pty := 7, pid := 5 }

/-- Initial slot-system state: idle reader, nothing written. -/
def slotStart : SlotSys :=
  { client := slotClient, reader := ReaderPC.idle, outputs := [] }

/-- The state reached after the failing trace of C8: first chunk
drained to the socket, second chunk stuck in the blocked reader. -/
def slotStuck : SlotSys :=
  { client :=
    { running := true, initialized := true, initial_cmd_index := 0,
      authenticated := false, buffer := none, len := 0, pty := 7, pid := 5,
      size := { ws_row := 0, ws_col := 0, ws_xpixel := 0, ws_ypixel := 0 },
      state := SlotState.STATE_DONE, pty_len := 2, pty_buffer := none },
    reader := ReaderPC.blocked 2 [99, 100],
    outputs := [[97, 98]] }

/-- C8 (code bug): the slot does hold at most one pending chunk — the
reader that arrives while the slot is still `STATE_READY` waits on the
condition variable — but nothing in protocol.c ever signals that
condition variable, so the claimed wake-up after the writer drains the
slot does not exist.  Concretely: the reader publishes chunk "ab", a
second read "cd" arrives before the socket writer runs and the reader
blocks, the writer then drains "ab" and marks the slot `STATE_DONE` —
and from that state every further schedule leaves the system unchanged:
the reader stays blocked forever and chunk "cd" is never delivered. -/
theorem missing_signal_deadlock :
    runSlot slotStart [SlotAct.deliver 2 [97, 98],
      SlotAct.deliver 2 [99, 100], SlotAct.writable] = some slotStuck ∧
    slotStuck.reader = ReaderPC.blocked 2 [99, 100] ∧
    slotStuck.outputs = [[97, 98]] ∧
    slotStuck.client.state = SlotState.STATE_DONE ∧
    (∀ tr s2, runSlot slotStuck tr = some s2 → s2 = slotStuck) := by
  refine ⟨by decide, by decide, by decide, by decide, ?_⟩
  intro tr
  induction tr with
  | nil =>
    intro s2 h
    simp only [runSlot] at h
    injection h with h
    exact h.symm
  | cons a tr ih =>
    intro s2 h
    cases a with
    | deliver n d =>
      simp [runSlot, slotStep, slotStuck] at h
    | writable =>
      have hs : slotStep slotStuck SlotAct.writable = some slotStuck := by
        decide
      rw [runSlot, hs] at h
      exact ih s2 h

/-- Witness for C8: `missing_signal_deadlock` applied to a one-step
schedule from the stuck state — a further writable event changes
nothing. -/
theorem missing_signal_deadlock_witness :
    runSlot slotStuck [SlotAct.writable] = some slotStuck := by
  have h : runSlot slotStuck [SlotAct.writable] = some slotStuck := by
    decide
  exact (missing_signal_deadlock.2.2.2.2 [SlotAct.writable] slotStuck h) ▸ h

end Ttyd
